import Mathlib

/-!
Verification of the k8s-resource-sharing broker and agent core.

Quantities are embedded as `Int` in a fixed base unit per component
(millicores for CPU, bytes — or any fixed byte multiple — for memory);
Kubernetes `resource.Quantity` arithmetic (`Add`, `Sub`, `Cmp`) is exact
fixed-point arithmetic, so `Int` with ordinary `+`, `-`, `≤` is a faithful
embedding.  Optional quantities (`*resource.Quantity` in Go) are `Option Int`.
Scores, computed in Go with `float64` over these integral inputs, are
embedded as exact rationals `ℚ`.
-/

/-- `ResourceQuantities` from `api/v1alpha1`: CPU and Memory required,
GPU and Storage optional (`*resource.Quantity`). -/
structure ResourceQuantities where
  cpu : Int
  memory : Int
  gpu : Option Int := none
  storage : Option Int := none
deriving DecidableEq, Repr

/-- `ResourceMetrics` from `api/v1alpha1`: four required component sets plus
the broker-owned optional `Reserved`. -/
structure ResourceMetrics where
  capacity : ResourceQuantities
  allocatable : ResourceQuantities
  allocated : ResourceQuantities
  available : ResourceQuantities
  reserved : Option ResourceQuantities := none
deriving DecidableEq, Repr

/-- `ClusterAdvertisement` CRD: object name, spec fields and the `Active`
status flag; `resourceVersion` embeds the Kubernetes optimistic-concurrency
version token. -/
structure ClusterAdvertisement where
  name : String
  clusterID : String
  clusterName : String := ""
  resources : ResourceMetrics
  active : Bool := true
  resourceVersion : Nat := 0
deriving DecidableEq, Repr

/-- The zero `ResourceQuantities` (Go zero value with nil optionals). -/
def zeroQuantities : ResourceQuantities := { cpu := 0, memory := 0 }

/-- Modelled from the spec: `CalculateAvailable` of the broker's
`internal/resource` calculator (implementation file absent from the sources;
only `calculator_test.go` remains).  Spec §3: "Available = Allocatable −
Allocated − Reserved(or zero)"; a nil `reserved` pointer counts as zero. -/
def CalculateAvailable (allocatable allocated : Int) (reserved : Option Int) : Int :=
  allocatable - allocated - reserved.getD 0

/-- Modelled from the spec: `UpdateAvailableResources` of the broker's
`internal/resource` calculator (implementation absent; behaviour fixed by
spec §3/§8.1 and `calculator_test.go`).  Recomputes `Available` componentwise
from `Allocatable`, `Allocated` and the optional `Reserved`; optional
components are recomputed when present in `Allocatable`. -/
def UpdateAvailableResources (r : ResourceMetrics) : ResourceMetrics :=
  let res := r.reserved.getD zeroQuantities
  { r with available :=
    { cpu := CalculateAvailable r.allocatable.cpu r.allocated.cpu (some res.cpu)
      memory := CalculateAvailable r.allocatable.memory r.allocated.memory (some res.memory)
      gpu := r.allocatable.gpu.map fun g =>
        CalculateAvailable g (r.allocated.gpu.getD 0) res.gpu
      storage := r.allocatable.storage.map fun st =>
        CalculateAvailable st (r.allocated.storage.getD 0) res.storage } }

/-- Modelled from the spec: `CanReserve` of the broker's `internal/resource`
calculator (implementation absent; behaviour fixed by spec glossary "Fit" and
`calculator_test.go`): the request fits when each requested quantity does not
exceed the advertised `Available` quantity (exact match accepted). -/
def CanReserve (adv : ClusterAdvertisement) (reqCpu reqMem : Int) : Bool :=
  decide (reqCpu ≤ adv.resources.available.cpu) &&
  decide (reqMem ≤ adv.resources.available.memory)

/-- Modelled from the spec: `AddReservation` of the broker's
`internal/resource` calculator (implementation absent; behaviour fixed by
spec §4.4 and `calculator_test.go`): `Reserved` gains the requested CPU and
memory (initialised from nil when absent) and `Available` is recomputed. -/
def AddReservation (adv : ClusterAdvertisement) (reqCpu reqMem : Int) :
    ClusterAdvertisement :=
  let prev := adv.resources.reserved.getD zeroQuantities
  let newReserved : ResourceQuantities :=
    { prev with cpu := prev.cpu + reqCpu, memory := prev.memory + reqMem }
  { adv with resources :=
      UpdateAvailableResources { adv.resources with reserved := some newReserved } }

/-- Modelled from the spec: `hasEnoughResources` of the broker's decision
engine (implementation absent; only `decision_test.go` remains): both the
requested CPU and the requested memory must not exceed the candidate's
advertised `Available` quantities. -/
def hasEnoughResources (adv : ClusterAdvertisement) (reqCpu reqMem : Int) : Bool :=
  decide (reqCpu ≤ adv.resources.available.cpu) &&
  decide (reqMem ≤ adv.resources.available.memory)

/-- Modelled from the spec: the candidate filter of the decision engine
(spec §4.3 step 2).  A candidate is discarded when its clusterID equals the
requesterID, when it is not active, when a required quantity does not fit,
or when a required allocatable component is missing or zero. -/
def passesFilter (requesterID : String) (reqCpu reqMem : Int)
    (adv : ClusterAdvertisement) : Bool :=
  decide (adv.clusterID ≠ requesterID) &&
  adv.active &&
  hasEnoughResources adv reqCpu reqMem &&
  decide (0 < adv.resources.allocatable.cpu) &&
  decide (0 < adv.resources.allocatable.memory)

/-- Modelled from the spec: the post-reservation headroom score of the
decision engine (spec §4.3 step 3):
`score = (1 − 0.5·cpu_util_after) + (1 − 0.5·mem_util_after)` with
`util_after(X) = 1 − (available(X) − requested(X)) / allocatable(X)`.
The Go `float64` computation is embedded as an exact rational. -/
def scoreAfter (adv : ClusterAdvertisement) (reqCpu reqMem : Int) : ℚ :=
  let cpuUtil : ℚ := 1 -
    ((adv.resources.available.cpu - reqCpu : Int) : ℚ) /
      ((adv.resources.allocatable.cpu : Int) : ℚ)
  let memUtil : ℚ := 1 -
    ((adv.resources.available.memory - reqMem : Int) : ℚ) /
      ((adv.resources.allocatable.memory : Int) : ℚ)
  (1 - (1 / 2) * cpuUtil) + (1 - (1 / 2) * memUtil)

/-- Modelled from the spec: the score-comparison tolerance of the decision
engine's tie-break (spec §4.3 step 4, "equal to within 1e-9"). -/
def tieEps : ℚ := 1 / 1000000000

/-- Modelled from the spec: one step of the decision engine's best-candidate
fold: a new candidate replaces the incumbent when it scores strictly higher
(beyond the tolerance) or ties within the tolerance with a lexicographically
smaller clusterID (spec §4.3 steps 3–4). -/
def betterCandidate (reqCpu reqMem : Int) (best : Option ClusterAdvertisement)
    (c : ClusterAdvertisement) : Option ClusterAdvertisement :=
  match best with
  | none => some c
  | some b =>
    if scoreAfter c reqCpu reqMem > scoreAfter b reqCpu reqMem + tieEps then some c
    else if |scoreAfter c reqCpu reqMem - scoreAfter b reqCpu reqMem| ≤ tieEps &&
        c.clusterID < b.clusterID then some c
    else some b

/-- Modelled from the spec: `SelectBestCluster` of the broker's decision
engine (implementation absent; spec §4.3): list, filter, score, tie-break,
return the top candidate or nothing when no candidate survives (the Go
function returns a `NoSuitableCluster` error in that case). -/
def SelectBestCluster (advs : List ClusterAdvertisement) (requesterID : String)
    (reqCpu reqMem : Int) : Option ClusterAdvertisement :=
  (advs.filter (passesFilter requesterID reqCpu reqMem)).foldl
    (betterCandidate reqCpu reqMem) none

/-- `Reservation` CRD: spec fields (`requesterID`, `targetClusterID`,
requested CPU/memory, priority, optional duration) and status fields
(phase, message, timestamps); `finalizer` embeds the release-pinning
finalizer and timestamps are milliseconds.  The Go zero value of the status
phase is the empty string. -/
structure Reservation where
  name : String
  requesterID : String
  targetClusterID : String
  cpu : Int
  memory : Int
  priority : Int := 0
  duration : Option Nat := none
  phase : String := ""
  message : String := ""
  reservedAt : Option Nat := none
  expiresAt : Option Nat := none
  finalizer : Bool := false
deriving DecidableEq, Repr

/-- `ReservationDTO` of the transport layer (quantity strings embedded as
their parsed values). -/
structure ReservationDTO where
  id : String
  requesterID : String
  targetClusterID : String
  cpu : Int
  memory : Int
  phase : String
  message : String
  reservedAt : Option Nat := none
  expiresAt : Option Nat := none
deriving DecidableEq, Repr

/-- `FromReservation` of `transport/dto/conversion.go`: project a stored
reservation onto the wire DTO. -/
def FromReservation (r : Reservation) : ReservationDTO :=
  { id := r.name
    requesterID := r.requesterID
    targetClusterID := r.targetClusterID
    cpu := r.cpu
    memory := r.memory
    phase := r.phase
    message := r.message
    reservedAt := r.reservedAt
    expiresAt := r.expiresAt }

/-- `ResourceMetricsDTO` of the transport layer: the four agent-owned
component sets plus the optional broker-owned `reserved`. -/
structure ResourceMetricsDTO where
  capacity : ResourceQuantities
  allocatable : ResourceQuantities
  allocated : ResourceQuantities
  available : ResourceQuantities
  reserved : Option ResourceQuantities := none
deriving DecidableEq, Repr

/-- `AdvertisementDTO` of the transport layer. -/
structure AdvertisementDTO where
  clusterID : String
  clusterName : String := ""
  resources : ResourceMetricsDTO
deriving DecidableEq, Repr

/-- `ToClusterAdvertisement` of `transport/dto/conversion.go`: build the CRD
named `<clusterID>-adv` from the DTO; `Reserved` is copied from the DTO when
present (nil otherwise).  The CRD status is the Go zero value, so `active`
is false until the broker marks the cluster active. -/
def ToClusterAdvertisement (dto : AdvertisementDTO) : ClusterAdvertisement :=
  { name := dto.clusterID ++ "-adv"
    clusterID := dto.clusterID
    clusterName := dto.clusterName
    resources :=
      { capacity := dto.resources.capacity
        allocatable := dto.resources.allocatable
        allocated := dto.resources.allocated
        available := dto.resources.available
        reserved := dto.resources.reserved }
    active := false
    resourceVersion := 0 }

/-- The broker's persisted state: the advertisement and reservation
collections of the backing store. -/
structure BrokerState where
  advs : List ClusterAdvertisement := []
  reservations : List Reservation := []
deriving DecidableEq, Repr

/-- Fetch-by-name on the advertisement collection. -/
def getAdv (advs : List ClusterAdvertisement) (name : String) :
    Option ClusterAdvertisement :=
  advs.find? fun x => x.name = name

/-- Update-with-version on the advertisement collection: replace the record
with the same name and advance its version token. -/
def putAdv (advs : List ClusterAdvertisement) (a : ClusterAdvertisement) :
    List ClusterAdvertisement :=
  advs.map fun x =>
    if x.name = a.name then { a with resourceVersion := x.resourceVersion + 1 } else x

/-- Status update on the reservation collection: replace the record with the
same name. -/
def putReservation (rs : List Reservation) (r : Reservation) : List Reservation :=
  rs.map fun x => if x.name = r.name then r else x

/-- The piggyback query of `PostAdvertisement`: all Reserved-phase
reservations whose target is the caller, projected to DTOs in store order. -/
def piggybackInstructions (rs : List Reservation) (clusterID : String) :
    List ReservationDTO :=
  rs.foldl
    (fun acc r =>
      if r.phase = "Reserved" ∧ r.targetClusterID = clusterID then
        acc ++ [FromReservation r]
      else acc) []

/-- Result of the advertisement intake handler: HTTP status, piggybacked
provider instructions, and the broker state after the call. -/
structure PostAdvResult where
  status : Nat
  providerInstructions : List ReservationDTO := []
  state : BrokerState
deriving DecidableEq, Repr

/-- `PostAdvertisement` handler (`POST /api/v1/advertisements`): reject on
identity mismatch; otherwise convert the DTO, preserve a non-nil stored
`Reserved` on the update path (also keeping the held version token and the
stored status), create on the absent path, and piggyback the caller's
Reserved-phase provider instructions. -/
def PostAdvertisement (s : BrokerState) (certClusterID : String)
    (incoming : AdvertisementDTO) : PostAdvResult :=
  if incoming.clusterID ≠ certClusterID then
    { status := 403, state := s }
  else
    let advName := incoming.clusterID ++ "-adv"
    let conv := ToClusterAdvertisement incoming
    match getAdv s.advs advName with
    | some existing =>
      let withReserved :=
        if existing.resources.reserved ≠ none then
          { conv with resources :=
              { conv.resources with reserved := existing.resources.reserved } }
        else conv
      let written := { withReserved with active := existing.active }
      let s2 : BrokerState := { s with advs := putAdv s.advs written }
      { status := 200
        providerInstructions := piggybackInstructions s2.reservations incoming.clusterID
        state := s2 }
    | none =>
      let s2 : BrokerState := { s with advs := s.advs ++ [conv] }
      { status := 200
        providerInstructions := piggybackInstructions s2.reservations incoming.clusterID
        state := s2 }

/-- Result of the instruction pull handler. -/
structure PullResult where
  status : Nat
  instructions : List ReservationDTO := []
deriving DecidableEq, Repr

/-- `GetInstructions` handler (`GET /api/v1/instructions`): 403 without an
authenticated identity; otherwise return every Reserved-phase reservation
whose target is the caller. -/
def GetInstructions (s : BrokerState) (ctxClusterID : Option String) : PullResult :=
  match ctxClusterID with
  | none => { status := 403 }
  | some cid =>
    if cid = "" then { status := 403 }
    else
      { status := 200
        instructions :=
          s.reservations.foldl
            (fun acc r =>
              if r.phase = "Reserved" ∧ r.targetClusterID = cid then
                acc ++ [FromReservation r]
              else acc) [] }

/-- Result of the synchronous reservation handler: HTTP status, response
body when created, and the broker state after the call. -/
structure PostRsvResult where
  status : Nat
  body : Option ReservationDTO := none
  state : BrokerState
deriving DecidableEq, Repr

/-- `PostReservation` handler (`POST /api/v1/reservations`): authenticate,
validate quantities, run the decision engine (no fit responds 409 before any
record is written), create the reservation record with a finalizer, run the
locking step against the chosen provider, and mark the record `Reserved` on
success or `Failed` (responding 409) when the lock fails. -/
def PostReservation (s : BrokerState) (ctxClusterID : Option String)
    (reqCpu reqMem : Option Int) (priority : Int) (duration : Option Nat)
    (nowMs : Nat) : PostRsvResult :=
  match ctxClusterID with
  | none => { status := 403, state := s }
  | some requesterID =>
    if requesterID = "" then { status := 403, state := s }
    else
      match reqCpu, reqMem with
      | some rc, some rm =>
        if rc ≤ 0 ∨ rm ≤ 0 then { status := 400, state := s }
        else
          match SelectBestCluster s.advs requesterID rc rm with
          | none => { status := 409, state := s }
          | some best =>
            let rsvName := "rsv-" ++ requesterID ++ "-" ++ toString nowMs
            if (s.reservations.find? fun r => r.name = rsvName).isSome then
              { status := 500, state := s }
            else
              let rsv0 : Reservation :=
                { name := rsvName
                  requesterID := requesterID
                  targetClusterID := best.clusterID
                  cpu := rc
                  memory := rm
                  priority := priority
                  duration := duration
                  finalizer := true }
              let s1 : BrokerState :=
                { s with reservations := s.reservations ++ [rsv0] }
              match getAdv s1.advs best.name with
              | none =>
                let failed :=
                  { rsv0 with phase := "Failed"
                              message := "Failed to lock resources: target cluster not found: "
                                ++ best.clusterID }
                { status := 409
                  state := { s1 with reservations := putReservation s1.reservations failed } }
              | some target =>
                if CanReserve target rc rm then
                  let target2 := AddReservation target rc rm
                  let s2 : BrokerState := { s1 with advs := putAdv s1.advs target2 }
                  let done :=
                    { rsv0 with phase := "Reserved"
                                message := "Resources locked in cluster " ++ best.clusterID
                                reservedAt := some nowMs
                                expiresAt := duration.map fun d => nowMs + d }
                  { status := 201
                    body := some (FromReservation done)
                    state := { s2 with reservations := putReservation s2.reservations done } }
                else
                  let failed :=
                    { rsv0 with phase := "Failed"
                                message := "Failed to lock resources: insufficient resources in cluster "
                                  ++ best.clusterID }
                  { status := 409
                    state := { s1 with reservations := putReservation s1.reservations failed } }
      | _, _ => { status := 400, state := s }

/-- `ProviderInstructionSpec` of the agent's CRDs. -/
structure ProviderInstructionSpec where
  reservationName : String
  requesterClusterID : String
  requestedCPU : Int
  requestedMemory : Int
  message : String := ""
  expiresAt : Option Nat := none
deriving DecidableEq, Repr

/-- Name of the local provider record for a reservation id
(`<id>-provider` in both agent delivery paths). -/
def providerInstructionName (id : String) : String := id ++ "-provider"

/-- The provider record built from a delivered instruction (identical in
the poll path and the piggyback path). -/
def mkProviderInstructionSpec (rsv : ReservationDTO) : ProviderInstructionSpec :=
  { reservationName := rsv.id
    requesterClusterID := rsv.requesterID
    requestedCPU := rsv.cpu
    requestedMemory := rsv.memory
    message := "Hold " ++ toString rsv.cpu ++ " CPU / " ++ toString rsv.memory
      ++ " Memory for requester " ++ rsv.requesterID
    expiresAt := rsv.expiresAt }

/-- The agent's store of materialised provider records, keyed by CRD name. -/
abbrev AgentState := List (String × ProviderInstructionSpec)

/-- One delivered instruction, as handled identically by
`InstructionPoller.processInstructions` and
`AdvertisementReconciler.processProviderInstructions`: skip non-Reserved
phases, skip when the record keyed by the reservation id already exists,
create it otherwise. -/
def processOneInstruction (s : AgentState) (rsv : ReservationDTO) : AgentState :=
  if rsv.phase ≠ "Reserved" then s
  else
    let name := providerInstructionName rsv.id
    if (s.find? fun e => e.1 = name).isSome then s
    else s ++ [(name, mkProviderInstructionSpec rsv)]

/-- `InstructionPoller.processInstructions` (poll path): materialise each
fetched instruction at most once. -/
def processInstructions (s : AgentState) (instrs : List ReservationDTO) : AgentState :=
  instrs.foldl processOneInstruction s

/-- `AdvertisementReconciler.processProviderInstructions` (piggyback path):
materialise each piggybacked instruction at most once. -/
def processProviderInstructions (s : AgentState) (instrs : List ReservationDTO) :
    AgentState :=
  instrs.foldl processOneInstruction s

/-- Extraction form of the decision-engine filter. -/
theorem passesFilter_iff (requesterID : String) (reqCpu reqMem : Int)
    (adv : ClusterAdvertisement) :
    passesFilter requesterID reqCpu reqMem adv = true ↔
      adv.clusterID ≠ requesterID ∧ adv.active = true ∧
      reqCpu ≤ adv.resources.available.cpu ∧
      reqMem ≤ adv.resources.available.memory ∧
      0 < adv.resources.allocatable.cpu ∧
      0 < adv.resources.allocatable.memory := by
  simp [passesFilter, hasEnoughResources, and_assoc]

/-- C2: For every ResourceMetrics value, the computed Available equals
Allocatable minus Allocated minus Reserved for each component (CPU, memory,
and GPU when present in Allocatable), where a nil Reserved is treated the
same as a zero Reserved. -/
theorem updateAvailable_componentwise_formula (r : ResourceMetrics) :
    (UpdateAvailableResources r).available.cpu
        = r.allocatable.cpu - r.allocated.cpu
            - (r.reserved.map ResourceQuantities.cpu).getD 0
    ∧ (UpdateAvailableResources r).available.memory
        = r.allocatable.memory - r.allocated.memory
            - (r.reserved.map ResourceQuantities.memory).getD 0
    ∧ (UpdateAvailableResources r).available.gpu
        = r.allocatable.gpu.map (fun g =>
            g - r.allocated.gpu.getD 0 - (r.reserved.bind ResourceQuantities.gpu).getD 0)
    ∧ (∀ a b : Int, CalculateAvailable a b none = CalculateAvailable a b (some 0)) := by
  rcases hr : r.reserved with _ | q <;>
    simp [UpdateAvailableResources, CalculateAvailable, zeroQuantities, hr]

/-- C9: an advertisement publish whose body clusterID differs from the
certificate identity is rejected with 403 and the broker state is unchanged:
no advertisement record is created or updated. -/
theorem postAdvertisement_identity_mismatch_403_no_change
    (s : BrokerState) (cert : String) (incoming : AdvertisementDTO)
    (h : incoming.clusterID ≠ cert) :
    (PostAdvertisement s cert incoming).status = 403 ∧
    (PostAdvertisement s cert incoming).state = s := by
  simp [PostAdvertisement, h]

/-- Witness for C9 at a concrete mismatching publish. -/
theorem postAdvertisement_identity_mismatch_403_no_change_witness :
    ("c1" : String) ≠ "c2" ∧
    (PostAdvertisement { advs := [], reservations := [] } "c2"
        { clusterID := "c1"
          resources :=
            { capacity := zeroQuantities, allocatable := zeroQuantities
              allocated := zeroQuantities, available := zeroQuantities } }).status = 403 ∧
    (PostAdvertisement { advs := [], reservations := [] } "c2"
        { clusterID := "c1"
          resources :=
            { capacity := zeroQuantities, allocatable := zeroQuantities
              allocated := zeroQuantities, available := zeroQuantities } }).state
      = { advs := [], reservations := [] } :=
  ⟨by decide,
   (postAdvertisement_identity_mismatch_403_no_change _ _ _ (by decide)).1,
   (postAdvertisement_identity_mismatch_403_no_change _ _ _ (by decide)).2⟩

/-- C10: on the create path (no stored advertisement), a non-nil reserved in
the incoming payload initialises the created record's Reserved from the
caller's value. -/
theorem postAdvertisement_create_uses_payload_reserved
    (s : BrokerState) (cert : String) (incoming : AdvertisementDTO)
    (q : ResourceQuantities)
    (hid : incoming.clusterID = cert)
    (habs : getAdv s.advs (incoming.clusterID ++ "-adv") = none)
    (hq : incoming.resources.reserved = some q) :
    (PostAdvertisement s cert incoming).state.advs
        = s.advs ++ [ToClusterAdvertisement incoming]
    ∧ (ToClusterAdvertisement incoming).resources.reserved = some q := by
  have habs2 : getAdv s.advs (cert ++ "-adv") = none := by rw [← hid]; exact habs
  constructor
  · simp [PostAdvertisement, hid, habs2]
  · simp [ToClusterAdvertisement, hq]

/-- Concrete first-time publish payload carrying a reserved field. -/
def sampleCreateDTO : AdvertisementDTO :=
  { clusterID := "c1"
    resources :=
      { capacity := zeroQuantities
        allocatable := { cpu := 4000, memory := 8192 }
        allocated := { cpu := 1000, memory := 2048 }
        available := { cpu := 3000, memory := 6144 }
        reserved := some { cpu := 250, memory := 512 } } }

/-- Witness for C10 at a concrete first-time publish carrying a reserved. -/
theorem postAdvertisement_create_uses_payload_reserved_witness :
    sampleCreateDTO.clusterID = "c1" ∧
    getAdv (BrokerState.advs { advs := [], reservations := [] })
        (sampleCreateDTO.clusterID ++ "-adv") = none ∧
    sampleCreateDTO.resources.reserved = some { cpu := 250, memory := 512 } ∧
    (PostAdvertisement { advs := [], reservations := [] } "c1" sampleCreateDTO).state.advs
        = [] ++ [ToClusterAdvertisement sampleCreateDTO] ∧
    (ToClusterAdvertisement sampleCreateDTO).resources.reserved
        = some { cpu := 250, memory := 512 } :=
  ⟨rfl, by decide, rfl,
   (postAdvertisement_create_uses_payload_reserved { advs := [], reservations := [] }
      "c1" sampleCreateDTO { cpu := 250, memory := 512 } rfl (by decide) rfl).1,
   (postAdvertisement_create_uses_payload_reserved { advs := [], reservations := [] }
      "c1" sampleCreateDTO { cpu := 250, memory := 512 } rfl (by decide) rfl).2⟩

/-- A record of `putAdv advs a` carrying the written name carries the written
resources (other records keep their distinct names). -/
theorem putAdv_mem_name (advs : List ClusterAdvertisement)
    (a w : ClusterAdvertisement) (hw : w ∈ putAdv advs a) (hname : w.name = a.name) :
    w.resources = a.resources := by
  simp only [putAdv, List.mem_map] at hw
  obtain ⟨x, _, hxw⟩ := hw
  by_cases h : x.name = a.name
  · rw [if_pos h] at hxw
    rw [← hxw]
  · rw [if_neg h] at hxw
    rw [← hxw] at hname
    exact absurd hname h

/-- C1: when a stored advertisement for the cluster exists with a non-nil
Reserved, the record written by the intake handler carries exactly the
previously-persisted Reserved, regardless of what Reserved the incoming
payload carries (the payload value is overwritten by the stored one). -/
theorem postAdvertisement_preserves_stored_reserved
    (s : BrokerState) (cert : String) (incoming : AdvertisementDTO)
    (e : ClusterAdvertisement) (q : ResourceQuantities)
    (hid : incoming.clusterID = cert)
    (hex : getAdv s.advs (incoming.clusterID ++ "-adv") = some e)
    (hres : e.resources.reserved = some q) :
    (PostAdvertisement s cert incoming).status = 200 ∧
    ∀ w ∈ (PostAdvertisement s cert incoming).state.advs,
      w.name = incoming.clusterID ++ "-adv" → w.resources.reserved = some q := by
  have hex2 : getAdv s.advs (cert ++ "-adv") = some e := by rw [← hid]; exact hex
  constructor
  · simp [PostAdvertisement, hid, hex2]
  · intro w hw hname
    simp only [PostAdvertisement, hid, ne_eq, not_true_eq_false, if_false, hex2] at hw
    have hres2 : ¬(e.resources.reserved = none) := by rw [hres]; simp
    rw [if_pos hres2] at hw
    have := putAdv_mem_name s.advs _ w hw (by
      simp [ToClusterAdvertisement, hname, hid])
    rw [this]
    exact hres

/-- Concrete stored advertisement with an outstanding Reserved. -/
def sampleStoredAdv : ClusterAdvertisement :=
  { name := "c1-adv"
    clusterID := "c1"
    resources :=
      { capacity := zeroQuantities
        allocatable := { cpu := 4000, memory := 8192 }
        allocated := { cpu := 1000, memory := 2048 }
        available := { cpu := 2500, memory := 5120 }
        reserved := some { cpu := 500, memory := 1024 } }
    active := true
    resourceVersion := 7 }

/-- Concrete re-publish payload omitting the reserved field. -/
def sampleUpdateDTO : AdvertisementDTO :=
  { clusterID := "c1"
    resources :=
      { capacity := zeroQuantities
        allocatable := { cpu := 4000, memory := 8192 }
        allocated := { cpu := 1000, memory := 2048 }
        available := { cpu := 3000, memory := 6144 } } }

/-- Witness for C1 at a concrete re-publish over a stored Reserved. -/
theorem postAdvertisement_preserves_stored_reserved_witness :
    sampleUpdateDTO.clusterID = "c1" ∧
    getAdv (BrokerState.advs { advs := [sampleStoredAdv], reservations := [] })
        (sampleUpdateDTO.clusterID ++ "-adv") = some sampleStoredAdv ∧
    sampleStoredAdv.resources.reserved = some { cpu := 500, memory := 1024 } ∧
    (PostAdvertisement { advs := [sampleStoredAdv], reservations := [] } "c1"
        sampleUpdateDTO).status = 200 ∧
    ∀ w ∈ (PostAdvertisement { advs := [sampleStoredAdv], reservations := [] } "c1"
        sampleUpdateDTO).state.advs,
      w.name = sampleUpdateDTO.clusterID ++ "-adv" →
        w.resources.reserved = some { cpu := 500, memory := 1024 } :=
  ⟨rfl, by decide, rfl,
   (postAdvertisement_preserves_stored_reserved
      { advs := [sampleStoredAdv], reservations := [] } "c1" sampleUpdateDTO
      sampleStoredAdv { cpu := 500, memory := 1024 } rfl (by decide) rfl).1,
   (postAdvertisement_preserves_stored_reserved
      { advs := [sampleStoredAdv], reservations := [] } "c1" sampleUpdateDTO
      sampleStoredAdv { cpu := 500, memory := 1024 } rfl (by decide) rfl).2⟩

/-- Folding conditional appends from an accumulator is the accumulator
followed by the filtered map. -/
theorem foldl_ite_append {α β : Type} (p : α → Prop) [DecidablePred p]
    (f : α → β) (l : List α) (acc : List β) :
    l.foldl (fun a x => if p x then a ++ [f x] else a) acc
      = acc ++ (l.filter fun x => decide (p x)).map f := by
  induction l generalizing acc with
  | nil => simp
  | cons x xs ih =>
    by_cases h : p x <;> simp [h, ih]

/-- C7: for an authenticated caller, the instruction pull endpoint returns
exactly the reservations whose phase is Reserved and whose targetClusterID is
the caller — a reservation in another phase or addressed to another cluster
is never returned. -/
theorem getInstructions_returns_exactly_matching
    (s : BrokerState) (cid : String) (hne : cid ≠ "") :
    (GetInstructions s (some cid)).status = 200 ∧
    (GetInstructions s (some cid)).instructions
      = (s.reservations.filter fun r =>
          decide (r.phase = "Reserved" ∧ r.targetClusterID = cid)).map FromReservation ∧
    ∀ d, d ∈ (GetInstructions s (some cid)).instructions ↔
      ∃ r ∈ s.reservations, r.phase = "Reserved" ∧ r.targetClusterID = cid ∧
        d = FromReservation r := by
  have hinstr : (GetInstructions s (some cid)).instructions
      = (s.reservations.filter fun r =>
          decide (r.phase = "Reserved" ∧ r.targetClusterID = cid)).map FromReservation := by
    simp only [GetInstructions, hne, if_neg, ite_false]
    rw [foldl_ite_append (fun r => r.phase = "Reserved" ∧ r.targetClusterID = cid)
      FromReservation s.reservations []]
    simp
  refine ⟨by simp [GetInstructions, hne], hinstr, ?_⟩
  intro d
  rw [hinstr]
  simp only [List.mem_map, List.mem_filter, decide_eq_true_eq]
  constructor
  · rintro ⟨r, ⟨hr, hp, ht⟩, hd⟩
    exact ⟨r, hr, hp, ht, hd.symm⟩
  · rintro ⟨r, hr, hp, ht, hd⟩
    exact ⟨r, ⟨hr, hp, ht⟩, hd.symm⟩

/-- Concrete Reserved-phase reservation targeting cluster c1. -/
def sampleReservedRsv : Reservation :=
  { name := "rsv-c0-123", requesterID := "c0", targetClusterID := "c1"
    cpu := 500, memory := 1024, phase := "Reserved"
    message := "Resources locked in cluster c1" }

/-- Concrete Failed-phase reservation targeting cluster c1. -/
def sampleFailedRsv : Reservation :=
  { sampleReservedRsv with name := "rsv-c9-77", phase := "Failed" }

/-- Concrete Reserved-phase reservation targeting another cluster. -/
def sampleOtherTargetRsv : Reservation :=
  { sampleReservedRsv with name := "rsv-c0-555", targetClusterID := "c9" }

/-- Witness for C7 at a concrete pull over a mixed reservation store. -/
theorem getInstructions_returns_exactly_matching_witness :
    ("c1" : String) ≠ "" ∧
    (GetInstructions
        { advs := [], reservations := [sampleReservedRsv, sampleFailedRsv, sampleOtherTargetRsv] }
        (some "c1")).status = 200 ∧
    (GetInstructions
        { advs := [], reservations := [sampleReservedRsv, sampleFailedRsv, sampleOtherTargetRsv] }
        (some "c1")).instructions = [FromReservation sampleReservedRsv] :=
  ⟨by decide,
   (getInstructions_returns_exactly_matching
      { advs := [], reservations := [sampleReservedRsv, sampleFailedRsv, sampleOtherTargetRsv] }
      "c1" (by decide)).1,
   by
    rw [(getInstructions_returns_exactly_matching
      { advs := [], reservations := [sampleReservedRsv, sampleFailedRsv, sampleOtherTargetRsv] }
      "c1" (by decide)).2.1]
    decide⟩

/-- A key absent from the agent store has zero records counted for it. -/
theorem find_none_countP (k : String) (s : AgentState)
    (h : (s.find? fun e => e.1 = k) = none) :
    s.countP (fun e => e.1 = k) = 0 := by
  rw [List.countP_eq_zero]
  rw [List.find?_eq_none] at h
  intro a ha
  simpa using h a ha

/-- Appending a record for a key makes a record for it findable. -/
theorem find_append_self (k : String) (v : ProviderInstructionSpec)
    (s : AgentState) :
    ((s ++ [(k, v)]).find? fun e => e.1 = k).isSome = true := by
  rw [List.find?_isSome]
  exact ⟨(k, v), by simp⟩

/-- C8: delivering a Reserved-phase provider instruction materialises exactly
one local record keyed by the reservation id; a second delivery through
either the poll path or the piggyback path leaves the store unchanged, and
any delivery for an id whose record already exists changes nothing. -/
theorem provider_instruction_delivery_idempotent
    (s : AgentState) (rsv : ReservationDTO)
    (hphase : rsv.phase = "Reserved")
    (habs : (s.find? fun e => e.1 = providerInstructionName rsv.id) = none) :
    processInstructions s [rsv]
        = s ++ [(providerInstructionName rsv.id, mkProviderInstructionSpec rsv)]
    ∧ processProviderInstructions (processInstructions s [rsv]) [rsv]
        = processInstructions s [rsv]
    ∧ processInstructions (processInstructions s [rsv]) [rsv]
        = processInstructions s [rsv]
    ∧ (processInstructions s [rsv]).countP
        (fun e => e.1 = providerInstructionName rsv.id) = 1
    ∧ ∀ t : AgentState, (t.find? fun e => e.1 = providerInstructionName rsv.id).isSome = true →
        processInstructions t [rsv] = t ∧ processProviderInstructions t [rsv] = t := by
  have hstep : processInstructions s [rsv]
      = s ++ [(providerInstructionName rsv.id, mkProviderInstructionSpec rsv)] := by
    simp [processInstructions, processOneInstruction, hphase, habs]
  have hexist : ∀ t : AgentState,
      (t.find? fun e => e.1 = providerInstructionName rsv.id).isSome = true →
      processOneInstruction t rsv = t := by
    intro t ht
    simp [processOneInstruction, hphase, ht]
  have hlook : ((processInstructions s [rsv]).find?
      fun e => e.1 = providerInstructionName rsv.id).isSome = true := by
    rw [hstep]
    exact find_append_self _ _ _
  refine ⟨hstep, ?_, ?_, ?_, ?_⟩
  · simpa [processProviderInstructions] using hexist _ hlook
  · simpa [processInstructions] using hexist _ hlook
  · rw [hstep]
    simp [List.countP_append, find_none_countP _ _ habs]
  · intro t ht
    constructor
    · simpa [processInstructions] using hexist t ht
    · simpa [processProviderInstructions] using hexist t ht

/-- Witness for C8 at a concrete instruction delivered through both paths. -/
theorem provider_instruction_delivery_idempotent_witness :
    (FromReservation sampleReservedRsv).phase = "Reserved" ∧
    (([] : AgentState).find? fun e =>
        e.1 = providerInstructionName (FromReservation sampleReservedRsv).id) = none ∧
    processInstructions [] [FromReservation sampleReservedRsv]
        = [] ++ [(providerInstructionName (FromReservation sampleReservedRsv).id,
            mkProviderInstructionSpec (FromReservation sampleReservedRsv))] ∧
    processProviderInstructions
        (processInstructions [] [FromReservation sampleReservedRsv])
        [FromReservation sampleReservedRsv]
      = processInstructions [] [FromReservation sampleReservedRsv] ∧
    (processInstructions [] [FromReservation sampleReservedRsv]).countP
        (fun e => e.1 = providerInstructionName (FromReservation sampleReservedRsv).id)
      = 1 :=
  ⟨rfl, rfl,
   (provider_instruction_delivery_idempotent [] (FromReservation sampleReservedRsv)
      rfl rfl).1,
   (provider_instruction_delivery_idempotent [] (FromReservation sampleReservedRsv)
      rfl rfl).2.1,
   (provider_instruction_delivery_idempotent [] (FromReservation sampleReservedRsv)
      rfl rfl).2.2.2.1⟩

/-- Concrete small cluster c1 (1000m/2Gi available). -/
def sampleSmallAdv1 : ClusterAdvertisement :=
  { name := "c1-adv"
    clusterID := "c1"
    resources :=
      { capacity := zeroQuantities
        allocatable := { cpu := 2000, memory := 4096 }
        allocated := { cpu := 1000, memory := 2048 }
        available := { cpu := 1000, memory := 2048 } }
    active := true }

/-- Concrete small cluster c2 (2000m/4Gi available). -/
def sampleSmallAdv2 : ClusterAdvertisement :=
  { name := "c2-adv"
    clusterID := "c2"
    resources :=
      { capacity := zeroQuantities
        allocatable := { cpu := 4000, memory := 8192 }
        allocated := { cpu := 2000, memory := 4096 }
        available := { cpu := 2000, memory := 4096 } }
    active := true }

/-- C3 counterexample: a no-fit reservation request (10000m CPU against
clusters with 1000m/2000m available) is answered with 409, but the handler
returns before creating any reservation record, so no Failed-phase record
persists — contradicting the claim that one does. -/
theorem noSuitableCluster_leaves_no_record :
    (PostReservation
        { advs := [sampleSmallAdv1, sampleSmallAdv2], reservations := [] }
        (some "c0") (some 10000) (some 1024) 0 none 1712345).status = 409 ∧
    (PostReservation
        { advs := [sampleSmallAdv1, sampleSmallAdv2], reservations := [] }
        (some "c0") (some 10000) (some 1024) 0 none 1712345).state.reservations = [] := by
  constructor <;> decide

/-- C3 amended: when the decision engine finds no suitable cluster, the
broker responds 409 and performs no state change — in particular no
reservation record (Failed or otherwise) is created or persisted. -/
theorem noSuitableCluster_responds_409_without_record
    (s : BrokerState) (requesterID : String) (rc rm : Int) (p : Int)
    (d : Option Nat) (now : Nat)
    (hne : requesterID ≠ "")
    (hrc : 0 < rc) (hrm : 0 < rm)
    (hsel : SelectBestCluster s.advs requesterID rc rm = none) :
    (PostReservation s (some requesterID) (some rc) (some rm) p d now).status = 409 ∧
    (PostReservation s (some requesterID) (some rc) (some rm) p d now).state = s := by
  have hv : ¬(rc ≤ 0 ∨ rm ≤ 0) := by omega
  constructor <;> simp [PostReservation, hne, hv, hsel]

/-- Witness for the amended C3 at the concrete no-fit request. -/
theorem noSuitableCluster_responds_409_without_record_witness :
    ("c0" : String) ≠ "" ∧ (0 : Int) < 10000 ∧ (0 : Int) < 1024 ∧
    SelectBestCluster
        (BrokerState.advs { advs := [sampleSmallAdv1, sampleSmallAdv2], reservations := [] })
        "c0" 10000 1024 = none ∧
    (PostReservation
        { advs := [sampleSmallAdv1, sampleSmallAdv2], reservations := [] }
        (some "c0") (some 10000) (some 1024) 0 none 1712345).status = 409 ∧
    (PostReservation
        { advs := [sampleSmallAdv1, sampleSmallAdv2], reservations := [] }
        (some "c0") (some 10000) (some 1024) 0 none 1712345).state
      = { advs := [sampleSmallAdv1, sampleSmallAdv2], reservations := [] } :=
  ⟨by decide, by decide, by decide, by decide,
   (noSuitableCluster_responds_409_without_record
      { advs := [sampleSmallAdv1, sampleSmallAdv2], reservations := [] }
      "c0" 10000 1024 0 none 1712345 (by decide) (by decide) (by decide) (by decide)).1,
   (noSuitableCluster_responds_409_without_record
      { advs := [sampleSmallAdv1, sampleSmallAdv2], reservations := [] }
      "c0" 10000 1024 0 none 1712345 (by decide) (by decide) (by decide) (by decide)).2⟩

/-- The best-candidate fold step yields the new candidate or keeps the
incumbent. -/
theorem betterCandidate_some (reqCpu reqMem : Int)
    (acc : Option ClusterAdvertisement) (x c : ClusterAdvertisement)
    (h : betterCandidate reqCpu reqMem acc x = some c) :
    c = x ∨ acc = some c := by
  cases acc with
  | none =>
    simp only [betterCandidate] at h
    exact Or.inl (Option.some.inj h).symm
  | some b =>
    simp only [betterCandidate] at h
    by_cases h1 : scoreAfter x reqCpu reqMem > scoreAfter b reqCpu reqMem + tieEps
    · rw [if_pos h1] at h
      exact Or.inl (Option.some.inj h).symm
    · rw [if_neg h1] at h
      by_cases h2 : (|scoreAfter x reqCpu reqMem - scoreAfter b reqCpu reqMem| ≤ tieEps
          && x.clusterID < b.clusterID) = true
      · rw [if_pos h2] at h
        exact Or.inl (Option.some.inj h).symm
      · rw [if_neg h2] at h
        exact Or.inr h

/-- A candidate produced by the best-candidate fold is the accumulator or a
member of the folded list. -/
theorem foldl_betterCandidate_mem (reqCpu reqMem : Int)
    (l : List ClusterAdvertisement) (acc : Option ClusterAdvertisement)
    (c : ClusterAdvertisement)
    (h : l.foldl (betterCandidate reqCpu reqMem) acc = some c) :
    acc = some c ∨ c ∈ l := by
  induction l generalizing acc with
  | nil => exact Or.inl h
  | cons x xs ih =>
    simp only [List.foldl_cons] at h
    rcases ih _ h with h2 | h2
    · rcases betterCandidate_some reqCpu reqMem acc x c h2 with h3 | h3
      · exact Or.inr (by rw [h3]; exact List.mem_cons_self _ _)
      · exact Or.inl h3
    · exact Or.inr (List.mem_cons_of_mem _ h2)

/-- A cluster chosen by the decision engine is an advertisement from the
snapshot that passes the candidate filter. -/
theorem selectBest_spec (advs : List ClusterAdvertisement) (requesterID : String)
    (reqCpu reqMem : Int) (c : ClusterAdvertisement)
    (h : SelectBestCluster advs requesterID reqCpu reqMem = some c) :
    c ∈ advs ∧ passesFilter requesterID reqCpu reqMem c = true := by
  unfold SelectBestCluster at h
  rcases foldl_betterCandidate_mem reqCpu reqMem _ none c h with h2 | h2
  · simp at h2
  · rw [List.mem_filter] at h2
    exact ⟨h2.1, h2.2⟩

/-- A record of `putReservation rs r1` is an original record or the written
one. -/
theorem putReservation_mem (rs : List Reservation) (r1 w : Reservation)
    (hw : w ∈ putReservation rs r1) : w ∈ rs ∨ w = r1 := by
  simp only [putReservation, List.mem_map] at hw
  obtain ⟨x, hx, hxw⟩ := hw
  by_cases h : x.name = r1.name
  · rw [if_pos h] at hxw
    exact Or.inr hxw.symm
  · rw [if_neg h] at hxw
    exact Or.inl (hxw ▸ hx)

/-- C4: the decision engine discards candidates equal to the requester and
inactive candidates, so every reservation record the handler creates (in any
phase) has a targetClusterID different from its requesterID. -/
theorem created_reservation_not_self_target
    (s : BrokerState) (ctx : Option String) (qc qm : Option Int) (p : Int)
    (d : Option Nat) (now : Nat) :
    (∀ advs reqr rc rm c, SelectBestCluster advs reqr rc rm = some c →
       c.clusterID ≠ reqr ∧ c.active = true) ∧
    ∀ r ∈ (PostReservation s ctx qc qm p d now).state.reservations,
      r ∈ s.reservations ∨ r.requesterID ≠ r.targetClusterID := by
  constructor
  · intro advs reqr rc rm c h
    have h2 := (selectBest_spec advs reqr rc rm c h).2
    rw [passesFilter_iff] at h2
    exact ⟨h2.1, h2.2.1⟩
  · intro r hr
    rcases ctx with _ | requesterID
    · exact Or.inl (by simpa [PostReservation] using hr)
    · by_cases hreq : requesterID = ""
      · exact Or.inl (by simpa [PostReservation, hreq] using hr)
      · rcases qc with _ | rc
        · exact Or.inl (by simpa [PostReservation, hreq] using hr)
        · rcases qm with _ | rm
          · exact Or.inl (by simpa [PostReservation, hreq] using hr)
          · by_cases hpos : rc ≤ 0 ∨ rm ≤ 0
            · exact Or.inl (by simpa [PostReservation, hreq, hpos] using hr)
            · rcases hsel : SelectBestCluster s.advs requesterID rc rm with _ | best
              · exact Or.inl (by simpa [PostReservation, hreq, hpos, hsel] using hr)
              · have hbest : best.clusterID ≠ requesterID := by
                  have h2 := (selectBest_spec _ _ _ _ _ hsel).2
                  rw [passesFilter_iff] at h2
                  exact h2.1
                by_cases hdup : (s.reservations.find? fun x =>
                    x.name = "rsv-" ++ requesterID ++ "-" ++ toString now).isSome = true
                · exact Or.inl (by simpa [PostReservation, hreq, hpos, hsel, hdup] using hr)
                · have hmem : ∀ (w a b : Reservation),
                      a.requesterID = requesterID → a.targetClusterID = best.clusterID →
                      b.requesterID = requesterID → b.targetClusterID = best.clusterID →
                      w ∈ putReservation (s.reservations ++ [a]) b →
                      w ∈ s.reservations ∨ w.requesterID ≠ w.targetClusterID := by
                    intro w a b ha1 ha2 hb1 hb2 hw
                    rcases putReservation_mem _ _ _ hw with h | h
                    · rcases List.mem_append.mp h with h2 | h2
                      · exact Or.inl h2
                      · right
                        have hwa : w = a := by simpa using h2
                        rw [hwa, ha1, ha2]
                        exact Ne.symm hbest
                    · right
                      rw [h, hb1, hb2]
                      exact Ne.symm hbest
                  simp only [PostReservation, hreq, if_neg, ite_false, hpos, hsel,
                    hdup, Bool.false_eq_true] at hr
                  rcases hadvt : getAdv s.advs best.name with _ | target
                  · rw [hadvt] at hr
                    simp only at hr
                    exact hmem r _ _ rfl rfl rfl rfl hr
                  · rw [hadvt] at hr
                    dsimp only at hr
                    by_cases hcan : CanReserve target rc rm = true
                    · rw [if_pos hcan] at hr
                      exact hmem r _ _ rfl rfl rfl rfl hr
                    · rw [if_neg hcan] at hr
                      exact hmem r _ _ rfl rfl rfl rfl hr

/-- Concrete fitting advertisement for cluster c1. -/
def sampleFitAdv : ClusterAdvertisement :=
  { name := "c1-adv"
    clusterID := "c1"
    resources :=
      { capacity := zeroQuantities
        allocatable := { cpu := 4000, memory := 8192 }
        allocated := { cpu := 1000, memory := 2048 }
        available := { cpu := 3000, memory := 6144 } }
    active := true }

/-- The reservation record created by the concrete run for C4's witness. -/
def sampleCreatedRsv : Reservation :=
  { name := "rsv-c0-123", requesterID := "c0", targetClusterID := "c1"
    cpu := 500, memory := 1024, priority := 0, duration := none
    phase := "Reserved", message := "Resources locked in cluster c1"
    reservedAt := some 123, expiresAt := none, finalizer := true }

/-- Witness for C4 at a concrete successful reservation. -/
theorem created_reservation_not_self_target_witness :
    sampleCreatedRsv ∈ (PostReservation { advs := [sampleFitAdv], reservations := [] }
        (some "c0") (some 500) (some 1024) 0 none 123).state.reservations ∧
    (sampleCreatedRsv ∈ BrokerState.reservations { advs := [sampleFitAdv], reservations := [] }
      ∨ sampleCreatedRsv.requesterID ≠ sampleCreatedRsv.targetClusterID) :=
  ⟨by decide,
   (created_reservation_not_self_target { advs := [sampleFitAdv], reservations := [] }
      (some "c0") (some 500) (some 1024) 0 none 123).2 sampleCreatedRsv (by decide)⟩

/-- Closed form of the headroom score. -/
theorem scoreAfter_eq (adv : ClusterAdvertisement) (reqCpu reqMem : Int) :
    scoreAfter adv reqCpu reqMem
      = 1 + (1 / 2) *
          ((((adv.resources.available.cpu : ℚ) - (reqCpu : ℚ))
              / (adv.resources.allocatable.cpu : ℚ))
            + (((adv.resources.available.memory : ℚ) - (reqMem : ℚ))
              / (adv.resources.allocatable.memory : ℚ))) := by
  unfold scoreAfter
  push_cast
  ring

/-- C5: among two fitting candidates with equal available quantities, the one
with the smaller allocatable (hence the higher available/allocatable ratio)
scores strictly higher after the reservation — beyond the 1e-9 tie tolerance,
scaled to integers in the last hypothesis — and is returned by the engine. -/
theorem selectBest_prefers_smaller_allocatable_at_equal_available
    (requesterID : String) (rc rm : Int) (c1 c2 : ClusterAdvertisement)
    (h1 : passesFilter requesterID rc rm c1 = true)
    (h2 : passesFilter requesterID rc rm c2 = true)
    (havc : c1.resources.available.cpu = c2.resources.available.cpu)
    (havm : c1.resources.available.memory = c2.resources.available.memory)
    (ham : c1.resources.allocatable.memory ≤ c2.resources.allocatable.memory)
    (hgap : 2 * (c1.resources.allocatable.cpu * c2.resources.allocatable.cpu)
        < (c1.resources.available.cpu - rc)
            * (c2.resources.allocatable.cpu - c1.resources.allocatable.cpu)
            * 1000000000) :
    SelectBestCluster [c1, c2] requesterID rc rm = some c1 := by
  have h1p := (passesFilter_iff requesterID rc rm c1).mp h1
  have h2p := (passesFilter_iff requesterID rc rm c2).mp h2
  obtain ⟨-, -, -, hfm1, hA1c, hA1m⟩ := h1p
  obtain ⟨-, -, -, -, hA2c, hA2m⟩ := h2p
  have hA1cQ : (0 : ℚ) < (c1.resources.allocatable.cpu : ℚ) := by exact_mod_cast hA1c
  have hA2cQ : (0 : ℚ) < (c2.resources.allocatable.cpu : ℚ) := by exact_mod_cast hA2c
  have hA1mQ : (0 : ℚ) < (c1.resources.allocatable.memory : ℚ) := by exact_mod_cast hA1m
  have hA2mQ : (0 : ℚ) < (c2.resources.allocatable.memory : ℚ) := by exact_mod_cast hA2m
  have hamQ : (c1.resources.allocatable.memory : ℚ)
      ≤ (c2.resources.allocatable.memory : ℚ) := by exact_mod_cast ham
  have hfmQ : (rm : ℚ) ≤ (c1.resources.available.memory : ℚ) := by exact_mod_cast hfm1
  have key : scoreAfter c2 rc rm + tieEps < scoreAfter c1 rc rm := by
    rw [scoreAfter_eq, scoreAfter_eq, ← havc, ← havm]
    have hmemdiv : ((c1.resources.available.memory : ℚ) - (rm : ℚ))
          / (c2.resources.allocatable.memory : ℚ)
        ≤ ((c1.resources.available.memory : ℚ) - (rm : ℚ))
          / (c1.resources.allocatable.memory : ℚ) := by
      gcongr
      linarith
    have hcpudiv : ((c1.resources.available.cpu : ℚ) - (rc : ℚ))
          / (c1.resources.allocatable.cpu : ℚ)
        - ((c1.resources.available.cpu : ℚ) - (rc : ℚ))
          / (c2.resources.allocatable.cpu : ℚ)
        = ((c1.resources.available.cpu : ℚ) - (rc : ℚ))
            * ((c2.resources.allocatable.cpu : ℚ) - (c1.resources.allocatable.cpu : ℚ))
            / ((c1.resources.allocatable.cpu : ℚ) * (c2.resources.allocatable.cpu : ℚ)) := by
      field_simp
      ring
    have hgapQ : 2 / 1000000000
        < ((c1.resources.available.cpu : ℚ) - (rc : ℚ))
            * ((c2.resources.allocatable.cpu : ℚ) - (c1.resources.allocatable.cpu : ℚ))
            / ((c1.resources.allocatable.cpu : ℚ) * (c2.resources.allocatable.cpu : ℚ)) := by
      rw [div_lt_div_iff₀ (by norm_num) (by positivity)]
      have hgapQ2 : 2 * ((c1.resources.allocatable.cpu : ℚ) * (c2.resources.allocatable.cpu : ℚ))
          < ((c1.resources.available.cpu : ℚ) - (rc : ℚ))
              * ((c2.resources.allocatable.cpu : ℚ) - (c1.resources.allocatable.cpu : ℚ))
              * 1000000000 := by exact_mod_cast hgap
      linarith
    rw [tieEps]
    linarith
  have heps : (0 : ℚ) < tieEps := by norm_num [tieEps]
  have hnot1 : ¬(scoreAfter c2 rc rm > scoreAfter c1 rc rm + tieEps) := by linarith
  have hnot2 : ¬((|scoreAfter c2 rc rm - scoreAfter c1 rc rm| ≤ tieEps
      && c2.clusterID < c1.clusterID) = true) := by
    simp only [Bool.and_eq_true, decide_eq_true_eq]
    rintro ⟨habs, -⟩
    have habs2 : tieEps < |scoreAfter c2 rc rm - scoreAfter c1 rc rm| := by
      rw [abs_sub_comm, abs_of_pos (by linarith)]
      linarith
    linarith
  unfold SelectBestCluster
  have hfilter : List.filter (passesFilter requesterID rc rm) [c1, c2] = [c1, c2] := by
    simp [List.filter, h1, h2]
  rw [hfilter]
  simp only [List.foldl_cons, List.foldl_nil]
  show betterCandidate rc rm (some c1) c2 = some c1
  unfold betterCandidate
  dsimp only
  rw [if_neg hnot1, if_neg hnot2]

/-- Spec scenario B candidate c1: 2000m available of 4000m allocatable. -/
def sampleB1 : ClusterAdvertisement :=
  { name := "cluster-1-adv"
    clusterID := "cluster-1"
    resources :=
      { capacity := zeroQuantities
        allocatable := { cpu := 4000, memory := 8192 }
        allocated := zeroQuantities
        available := { cpu := 2000, memory := 4096 } }
    active := true }

/-- Spec scenario B candidate c2: 2000m available of 8000m allocatable. -/
def sampleB2 : ClusterAdvertisement :=
  { name := "cluster-2-adv"
    clusterID := "cluster-2"
    resources :=
      { capacity := zeroQuantities
        allocatable := { cpu := 8000, memory := 16384 }
        allocated := zeroQuantities
        available := { cpu := 2000, memory := 4096 } }
    active := true }

/-- Witness for C5 at spec scenario B (memory in Mi). -/
theorem selectBest_prefers_smaller_allocatable_witness :
    passesFilter "cluster-0" 500 1024 sampleB1 = true ∧
    passesFilter "cluster-0" 500 1024 sampleB2 = true ∧
    sampleB1.resources.available.cpu = sampleB2.resources.available.cpu ∧
    sampleB1.resources.available.memory = sampleB2.resources.available.memory ∧
    sampleB1.resources.allocatable.memory ≤ sampleB2.resources.allocatable.memory ∧
    2 * (sampleB1.resources.allocatable.cpu * sampleB2.resources.allocatable.cpu)
      < (sampleB1.resources.available.cpu - 500)
          * (sampleB2.resources.allocatable.cpu - sampleB1.resources.allocatable.cpu)
          * 1000000000 ∧
    SelectBestCluster [sampleB1, sampleB2] "cluster-0" 500 1024 = some sampleB1 :=
  ⟨by decide, by decide, by decide, by decide, by decide, by decide,
   selectBest_prefers_smaller_allocatable_at_equal_available "cluster-0" 500 1024
     sampleB1 sampleB2 (by decide) (by decide) (by decide) (by decide) (by decide)
     (by decide)⟩

/-- C6: a successful locking step adds exactly the requested quantities to
Reserved (initialising a nil Reserved and accumulating across successive
reservations), recomputes Available from the formula with the new Reserved,
and leaves Allocatable, Allocated and Capacity unchanged. -/
theorem addReservation_gains_requested_and_frames
    (adv : ClusterAdvertisement) (rc rm : Int)
    (h : CanReserve adv rc rm = true) :
    (AddReservation adv rc rm).resources.reserved
        = some { adv.resources.reserved.getD zeroQuantities with
            cpu := (adv.resources.reserved.getD zeroQuantities).cpu + rc
            memory := (adv.resources.reserved.getD zeroQuantities).memory + rm }
    ∧ (AddReservation adv rc rm).resources.available.cpu
        = CalculateAvailable adv.resources.allocatable.cpu adv.resources.allocated.cpu
            (some ((adv.resources.reserved.getD zeroQuantities).cpu + rc))
    ∧ (AddReservation adv rc rm).resources.available.memory
        = CalculateAvailable adv.resources.allocatable.memory adv.resources.allocated.memory
            (some ((adv.resources.reserved.getD zeroQuantities).memory + rm))
    ∧ (AddReservation adv rc rm).resources.allocatable = adv.resources.allocatable
    ∧ (AddReservation adv rc rm).resources.allocated = adv.resources.allocated
    ∧ (AddReservation adv rc rm).resources.capacity = adv.resources.capacity
    ∧ ∀ rc2 rm2 : Int,
        ((AddReservation (AddReservation adv rc rm) rc2 rm2).resources.reserved.getD
            zeroQuantities).cpu
          = (adv.resources.reserved.getD zeroQuantities).cpu + rc + rc2
        ∧ ((AddReservation (AddReservation adv rc rm) rc2 rm2).resources.reserved.getD
            zeroQuantities).memory
          = (adv.resources.reserved.getD zeroQuantities).memory + rm + rm2 := by
  refine ⟨rfl, rfl, rfl, rfl, rfl, rfl, fun rc2 rm2 => ⟨rfl, rfl⟩⟩

/-- Witness for C6 at a concrete fitting lock step. -/
theorem addReservation_gains_requested_and_frames_witness :
    CanReserve sampleFitAdv 500 1024 = true ∧
    (AddReservation sampleFitAdv 500 1024).resources.reserved
        = some { sampleFitAdv.resources.reserved.getD zeroQuantities with
            cpu := (sampleFitAdv.resources.reserved.getD zeroQuantities).cpu + 500
            memory := (sampleFitAdv.resources.reserved.getD zeroQuantities).memory + 1024 } ∧
    (AddReservation sampleFitAdv 500 1024).resources.allocatable
        = sampleFitAdv.resources.allocatable ∧
    (AddReservation sampleFitAdv 500 1024).resources.capacity
        = sampleFitAdv.resources.capacity :=
  ⟨by decide,
   (addReservation_gains_requested_and_frames sampleFitAdv 500 1024 (by decide)).1,
   (addReservation_gains_requested_and_frames sampleFitAdv 500 1024 (by decide)).2.2.2.1,
   (addReservation_gains_requested_and_frames sampleFitAdv 500 1024 (by decide)).2.2.2.2.2.1⟩
